import Mathlib

/-!
Shallow embedding of `remote_client.py` (repository nfyn/remote_ssh_client).

The paramiko SSH/SFTP transport, the local `os` filesystem calls and the
Python `str`/`bytes` primitives are external collaborators of the code under
verification; they are modelled here as explicit state (`World`, `SftpState`)
and total Lean functions.  Every function named after a method of
`RemoteClient` is a line-by-line translation of that method's source; Python
exceptions become the `Except PyErr` component of the returned pair, and the
state component always carries the mutations performed before an exception
was raised (Python exceptions do not roll state back).
-/

namespace RemoteClient

/-- Python exception values distinguished by the source code. -/
inductive PyErr
  | valueError (msg : String)
  | ioError
  | statError
  | fileExistsError
  | recursionError
deriving DecidableEq, Repr

/-- Result of a remote `sftp.stat(path)` call: success carries `st_mode`;
`notFound` models `FileNotFoundError`; `otherError` models any other
exception the stat may raise (permission denied, broken channel, ...). -/
inductive StatResult
  | found (st_mode : Nat)
  | notFound
  | otherError
deriving DecidableEq, Repr

/-- Kind of a local path as reported by `os.path.exists` / `isdir` / `isfile`:
`special` is a path that exists but is neither a regular file nor a
directory (socket, fifo, device, ...). -/
inductive PKind
  | absent
  | regFile
  | directory
  | special
deriving DecidableEq, Repr

/-- Trace of the mutating operations the client performs, oldest first. -/
inductive Effect
  | localMakedirs (path : String)
  | sftpGet (remotePath localPath : String)
  | sftpPut (localPath remotePath : String)
  | remoteShellMkdir (path : String)
  | sftpWrite (path : String) (text : String)
  | sftpChmod (path : String) (mode : Nat)
deriving DecidableEq, Repr

/-- File-type mask of `st_mode` (`stat.S_IFMT`). -/
def S_IFMT : Nat := 0o170000

/-- Directory bit pattern (`stat.S_IFDIR`). -/
def S_IFDIR : Nat := 0o040000

/-- Regular-file bit pattern (`stat.S_IFREG`). -/
def S_IFREG : Nat := 0o100000

/-- `stat.S_ISDIR(mode)`. -/
def S_ISDIR (mode : Nat) : Bool := mode &&& S_IFMT == S_IFDIR

/-- `stat.S_ISREG(mode)`. -/
def S_ISREG (mode : Nat) : Bool := mode &&& S_IFMT == S_IFREG

/-- Drop the trailing `/` characters of a character list
(Python `str.rstrip(sep)` on a path). -/
def stripTrailingSlashes (cs : List Char) : List Char :=
  ((cs.reverse).dropWhile (fun c => c == '/')).reverse

/-- Python `str.rstrip(sep)` with separator `/`, on strings. -/
def pyRstripSlash (p : String) : String :=
  String.mk (stripTrailingSlashes p.data)

/-- Model of `os.path.split` (POSIX flavour): the part after the last `/`
is the tail; the head keeps a run consisting only of slashes, and otherwise
loses its trailing slashes. -/
def pathSplit (p : String) : String × String :=
  let cs := p.data
  let tailPart := ((cs.reverse).takeWhile (fun c => c != '/')).reverse
  let headPart := cs.take (cs.length - tailPart.length)
  let headFixed := if headPart.all (fun c => c == '/') then headPart
                   else stripTrailingSlashes headPart
  (String.mk headFixed, String.mk tailPart)

/-- Model of `os.path.dirname`. -/
def dirname (p : String) : String := (pathSplit p).1

/-- Model of `os.path.join(a, b).replace(backslash, slash)` as the source
uses it: POSIX join of a base path with an entry name. -/
def pjoin (a b : String) : String :=
  if b.startsWith "/" then b
  else if a == "" || a.endsWith "/" then a ++ b
  else a ++ "/" ++ b

/-- The world the `RemoteClient` transfer methods act on: the local
filesystem (`os` calls), the remote filesystem seen through `sftp.stat`,
both directory listings, the success of remote shell `mkdir -p` commands,
and the trace of mutations performed so far. -/
structure World where
  lkind : String → PKind
  rstat : String → StatResult
  rlist : String → List String
  llist : String → List String
  mkdirOk : String → Bool
  effects : List Effect

/-- `os.path.exists`. -/
def os_exists (w : World) (p : String) : Bool :=
  match w.lkind p with
  | .absent => false
  | _ => true

/-- `os.path.isdir`. -/
def os_isdir (w : World) (p : String) : Bool :=
  match w.lkind p with
  | .directory => true
  | _ => false

/-- `os.path.isfile`. -/
def os_isfile (w : World) (p : String) : Bool :=
  match w.lkind p with
  | .regFile => true
  | _ => false

/-- `RemoteClient.is_remote_exist`: `sftp.stat` in a `try` that catches only
`FileNotFoundError`; any other stat failure propagates as an exception. -/
def is_remote_exist (w : World) (path : String) : Except PyErr Bool :=
  match w.rstat path with
  | .found _ => .ok true
  | .notFound => .ok false
  | .otherError => .error .statError

/-- `RemoteClient.is_remote_dir`: `S_ISDIR` of the stat mode; both
`FileNotFoundError` and every other exception are caught and yield `false`. -/
def is_remote_dir (w : World) (path : String) : Bool :=
  match w.rstat path with
  | .found m => S_ISDIR m
  | .notFound => false
  | .otherError => false

/-- `RemoteClient.is_remote_file`: `S_ISREG` of the stat mode; both
`FileNotFoundError` and every other exception are caught and yield `false`. -/
def is_remote_file (w : World) (path : String) : Bool :=
  match w.rstat path with
  | .found m => S_ISREG m
  | .notFound => false
  | .otherError => false

/-- Append one mutation to the world's trace. -/
def recordEffect (w : World) (e : Effect) : World :=
  { w with effects := w.effects ++ [e] }

/-- The chain `p, dirname p, dirname (dirname p), ...` down to the root or
the empty string; the fuel is an upper bound on the chain length. -/
def dirChain : Nat → String → List String
  | 0, _ => []
  | fuel+1, p =>
    if p = "" then []
    else
      let d := dirname p
      if d = p then [p] else p :: dirChain fuel d

/-- A locally absent path becomes a directory; other kinds are unchanged. -/
def toLocalDir (k : PKind) : PKind :=
  match k with
  | .absent => .directory
  | k => k

/-- Mark every listed path that is currently absent as a local directory. -/
def mkdirAllLocal (w : World) (paths : List String) : World :=
  { w with lkind := fun q => if paths.contains q then toLocalDir (w.lkind q) else w.lkind q }

/-- Model of `os.makedirs(p, exist_ok)`: creates `p` and its missing
ancestors; an existing directory target is an error unless `exist_ok`; a
path in the chain that exists as something other than a directory is an
error. -/
def makedirs (w : World) (p : String) (exist_ok : Bool) : World × Except PyErr Unit :=
  match w.lkind p with
  | .directory => if exist_ok then (w, .ok ()) else (w, .error .fileExistsError)
  | .absent =>
    let chain := dirChain (p.length + 1) p
    if chain.any (fun q =>
        match w.lkind q with
        | .regFile => true
        | .special => true
        | _ => false) then
      (w, .error .fileExistsError)
    else
      (recordEffect (mkdirAllLocal w chain) (.localMakedirs p), .ok ())
  | _ => (w, .error .fileExistsError)

/-- Model of `sftp.get(remote_path, local_path)`: the local target becomes a
regular file. -/
def sftp_get (w : World) (remote_path local_path : String) : World :=
  { w with lkind := fun q => if q = local_path then .regFile else w.lkind q,
           effects := w.effects ++ [Effect.sftpGet remote_path local_path] }

/-- Model of `sftp.put(local_path, remote_path)`: the remote target becomes
a regular file (an existing target keeps its mode). -/
def sftp_put (w : World) (local_path remote_path : String) : World :=
  let newMode := match w.rstat remote_path with
    | .found m => m
    | _ => S_IFREG + 0o644
  { w with rstat := fun q => if q = remote_path then .found newMode else w.rstat q,
           effects := w.effects ++ [Effect.sftpPut local_path remote_path] }

/-- Model of `sftp.open(path, w).write(text)`: create or truncate the remote
file with exactly `text`. -/
def sftp_write (w : World) (path text : String) : World :=
  let newMode := match w.rstat path with
    | .found m => m
    | _ => S_IFREG + 0o644
  { w with rstat := fun q => if q = path then .found newMode else w.rstat q,
           effects := w.effects ++ [Effect.sftpWrite path text] }

/-- Replace the permission bits (low 12 bits) of a mode. -/
def setPermBits (old m : Nat) : Nat := old - old % 0o10000 + m % 0o10000

/-- Apply a chmod to a stat result: only a found entry changes its bits. -/
def chmodStat (r : StatResult) (mode : Nat) : StatResult :=
  match r with
  | .found m => .found (setPermBits m mode)
  | r => r

/-- Model of `sftp.chmod(path, mode)`. -/
def sftp_chmod (w : World) (path : String) (mode : Nat) : World :=
  { w with rstat := fun q => if q = path then chmodStat (w.rstat q) mode else w.rstat q,
           effects := w.effects ++ [Effect.sftpChmod path mode] }

/-- A remotely missing path becomes a directory; other entries unchanged. -/
def toRemoteDir (r : StatResult) : StatResult :=
  match r with
  | .notFound => .found (S_IFDIR + 0o755)
  | r => r

/-- Mark every listed remote path that does not yet exist as a directory. -/
def mkdirAllRemote (w : World) (paths : List String) : World :=
  { w with rstat := fun q => if paths.contains q then toRemoteDir (w.rstat q) else w.rstat q }

/-- `RemoteClient.remote_makedir`: runs `mkdir -p path` through the remote
shell and returns the command's success flag; on success the path and its
missing ancestors become remote directories. -/
def remote_makedir (w : World) (path : String) : World × Bool :=
  let w1 := recordEffect w (.remoteShellMkdir path)
  if w1.mkdirOk path then
    (mkdirAllRemote w1 (dirChain (path.length + 1) path), true)
  else (w1, false)

/-- `RemoteClient.write_file`: reject an existing remote directory target,
otherwise write `text` and call `sftp.chmod` with the integer literal `755`
exactly as the source does (a decimal literal, not octal `0o755`). -/
def write_file (w : World) (text remote_file_path : String) : World × Except PyErr Unit :=
  match is_remote_exist w remote_file_path with
  | .error e => (w, .error e)
  | .ok ex =>
    if ex && is_remote_dir w remote_file_path then
      (w, .error (.valueError ("错误：远程路径" ++ remote_file_path ++ "已经存在，并且为文件夹，无法正常写入")))
    else
      (sftp_chmod (sftp_write w remote_file_path text) remote_file_path 755, .ok ())

/-- `RemoteClient._get_one_file`: single-file download.  The not-found
message interpolates `local_path`, exactly as the source line does. -/
def get_one_file (w : World) (remote_path local_path : String) : World × Except PyErr Unit :=
  match is_remote_exist w remote_path with
  | .error e => (w, .error e)
  | .ok false => (w, .error (.valueError ("错误：远程路径" ++ local_path ++ "不存在")))
  | .ok true =>
    let step :=
      if os_exists w (dirname local_path) then (w, .ok ())
      else if local_path.endsWith "/" then makedirs w local_path true
      else makedirs w (dirname local_path) false
    match step with
    | (w1, Except.error e) => (w1, Except.error e)
    | (w1, Except.ok _) =>
      let target := if os_isdir w1 local_path
                    then pjoin local_path (pathSplit remote_path).2
                    else local_path
      (sftp_get w1 remote_path target, .ok ())

/-- `RemoteClient.get_file`: recursive download of a file or directory tree.
The fuel bounds the recursion depth (Python's recursion limit). -/
def get_file : Nat → World → String → String → World × Except PyErr Unit
  | 0, w, _, _ => (w, .error .recursionError)
  | fuel+1, w, remote_path, local_path =>
    match is_remote_exist w remote_path with
    | .error e => (w, .error e)
    | .ok false => (w, .error (.valueError ("错误：远程路径" ++ remote_path ++ "不存在")))
    | .ok true =>
      if is_remote_dir w remote_path then
        let step := if os_exists w local_path then (w, Except.ok ())
                    else makedirs w local_path true
        match step with
        | (w1, Except.error e) => (w1, Except.error e)
        | (w1, Except.ok _) =>
          if os_isdir w1 local_path then
            (w1.rlist remote_path).foldl
              (fun acc item =>
                match acc with
                | (w2, Except.error e) => (w2, Except.error e)
                | (w2, Except.ok _) =>
                  get_file fuel w2 (pjoin remote_path item) (pjoin local_path item))
              (w1, Except.ok ())
          else
            (w1, .error (.valueError ("错误：本地路径" ++ local_path ++ "为文件，但远程路径" ++ remote_path ++ "为文件夹，无法传输")))
      else if is_remote_file w remote_path then
        get_one_file w remote_path local_path
      else
        (w, .ok ())

/-- `RemoteClient._put_one_file`: single-file upload. -/
def put_one_file (w : World) (local_path remote_path : String) : World × Except PyErr Unit :=
  if os_exists w local_path then
    match is_remote_exist w (dirname remote_path) with
    | .error e => (w, .error e)
    | .ok ex =>
      let w1 := if ex then w
                else if remote_path.endsWith "/" then (remote_makedir w remote_path).1
                else (remote_makedir w (dirname remote_path)).1
      let target := if is_remote_dir w1 remote_path
                    then pjoin remote_path (pathSplit local_path).2
                    else remote_path
      (sftp_put w1 local_path target, .ok ())
  else
    (w, .error (.valueError ("错误：本地路径" ++ local_path ++ "不存在")))

/-- `RemoteClient.put_file`: recursive upload of a file or directory tree.
The fuel bounds the recursion depth (Python's recursion limit). -/
def put_file : Nat → World → String → String → World × Except PyErr Unit
  | 0, w, _, _ => (w, .error .recursionError)
  | fuel+1, w, local_path, remote_path =>
    if os_exists w local_path then
      if os_isdir w local_path then
        match is_remote_exist w remote_path with
        | .error e => (w, .error e)
        | .ok ex =>
          let w1 := if ex then w else (remote_makedir w remote_path).1
          if is_remote_dir w1 remote_path then
            (w1.llist local_path).foldl
              (fun acc item =>
                match acc with
                | (w2, Except.error e) => (w2, Except.error e)
                | (w2, Except.ok _) =>
                  put_file fuel w2 (pjoin local_path item) (pjoin remote_path item))
              (w1, Except.ok ())
          else
            (w1, .error (.valueError ("错误：远程路径" ++ remote_path ++ "为文件，但本地路径" ++ local_path ++ "为文件夹，无法传输")))
      else if os_isfile w local_path then
        put_one_file w local_path remote_path
      else
        (w, .ok ())
    else
      (w, .error (.valueError ("错误：本地路径" ++ local_path ++ "不存在")))

/-- A paramiko `SSHClient` handle: whether its transport was successfully
connected, and whether `close()` has been called on it. -/
structure ClientHandle where
  connected : Bool
  closed : Bool
deriving DecidableEq, Repr

/-- A paramiko `SFTPClient` handle. -/
structure SftpHandle where
  closed : Bool
deriving DecidableEq, Repr

/-- The two channel attributes of a `RemoteClient` instance: `self.client`
and `self.sftp`, both `None` right after construction. -/
structure Session where
  client : Option ClientHandle
  sftp : Option SftpHandle
deriving DecidableEq, Repr

/-- Outcome of the `client.connect(...)` call inside `connect`. -/
inductive ConnectOutcome
  | ok
  | authFail
  | otherFail
deriving DecidableEq, Repr

/-- Environment of one `connect()` run: how the transport-level connect
ends, and whether `open_sftp()` succeeds afterwards. -/
structure ConnEnv where
  connectResult : ConnectOutcome
  sftpOk : Bool
deriving DecidableEq, Repr

/-- `RemoteClient.connect`: `self.client = SSHClient()` runs first and
always leaves a fresh unconnected handle; `AuthenticationException` and
every other exception are caught and only logged, so the assignments made
before the failing step persist and nothing propagates. -/
def connect (s : Session) (env : ConnEnv) : Session :=
  let s1 : Session := { s with client := some { connected := false, closed := false } }
  match env.connectResult with
  | .authFail => s1
  | .otherFail => s1
  | .ok =>
    let s2 : Session := { s1 with client := some { connected := true, closed := false } }
    if env.sftpOk then { s2 with sftp := some { closed := false } } else s2

/-- Mark a client handle closed (paramiko `close()` is idempotent). -/
def closeClient (h : ClientHandle) : ClientHandle := { h with closed := true }

/-- Mark an sftp handle closed (paramiko `close()` is idempotent). -/
def closeSftp (h : SftpHandle) : SftpHandle := { h with closed := true }

/-- `RemoteClient.disconnect`: close `self.sftp` if truthy, then close
`self.client` if truthy; neither attribute is ever reset to `None`. -/
def disconnect (s : Session) : Session :=
  let s1 : Session :=
    match s.sftp with
    | none => s
    | some h => { s with sftp := some (closeSftp h) }
  match s1.client with
  | none => s1
  | some h => { s1 with client := some (closeClient h) }

/-- What the remote side does with one executed command: its exit status
and the raw bytes written to stdout and stderr. -/
structure ExecOutcome where
  exitStatus : Nat
  stdout : List Nat
  stderr : List Nat

/-- A UTF-8 continuation byte. -/
def isCont (b : Nat) : Bool := 0x80 ≤ b && b ≤ 0xBF

/-- One step of strict UTF-8 decoding, modelled from the behaviour of
Python `bytes.decode` with `errors=ignore`: either one decoded scalar and
the number of bytes it used, or no scalar and the length of the maximal
ill-formed subpart to skip (always at least 1). -/
def utf8Step (bs : List Nat) : Option Char × Nat :=
  match bs with
  | [] => (none, 1)
  | b0 :: rest =>
    if b0 ≤ 0x7F then (some (Char.ofNat b0), 1)
    else if 0xC2 ≤ b0 && b0 ≤ 0xDF then
      match rest with
      | b1 :: _ =>
        if isCont b1 then (some (Char.ofNat ((b0 - 0xC0) * 0x40 + (b1 - 0x80))), 2)
        else (none, 1)
      | [] => (none, 1)
    else if 0xE0 ≤ b0 && b0 ≤ 0xEF then
      let lo1 := if b0 = 0xE0 then 0xA0 else 0x80
      let hi1 := if b0 = 0xED then 0x9F else 0xBF
      match rest with
      | b1 :: rest1 =>
        if lo1 ≤ b1 && b1 ≤ hi1 then
          match rest1 with
          | b2 :: _ =>
            if isCont b2 then
              (some (Char.ofNat ((b0 - 0xE0) * 0x1000 + (b1 - 0x80) * 0x40 + (b2 - 0x80))), 3)
            else (none, 2)
          | [] => (none, 2)
        else (none, 1)
      | [] => (none, 1)
    else if 0xF0 ≤ b0 && b0 ≤ 0xF4 then
      let lo1 := if b0 = 0xF0 then 0x90 else 0x80
      let hi1 := if b0 = 0xF4 then 0x8F else 0xBF
      match rest with
      | b1 :: rest1 =>
        if lo1 ≤ b1 && b1 ≤ hi1 then
          match rest1 with
          | b2 :: rest2 =>
            if isCont b2 then
              match rest2 with
              | b3 :: _ =>
                if isCont b3 then
                  (some (Char.ofNat
                    ((b0 - 0xF0) * 0x40000 + (b1 - 0x80) * 0x1000 + (b2 - 0x80) * 0x40 + (b3 - 0x80))), 4)
                else (none, 3)
              | [] => (none, 3)
            else (none, 2)
          | [] => (none, 2)
        else (none, 1)
      | [] => (none, 1)
    else (none, 1)

/-- Decode UTF-8 dropping ill-formed subparts; each step consumes at least
one byte, so fuel equal to the byte count is enough. -/
def utf8DecodeAux : Nat → List Nat → List Char
  | 0, _ => []
  | fuel+1, bs =>
    match bs with
    | [] => []
    | _ :: _ =>
      match utf8Step bs with
      | (some c, n) => c :: utf8DecodeAux fuel (bs.drop n)
      | (none, n) => utf8DecodeAux fuel (bs.drop n)

/-- Model of Python `bytes.decode` with encoding utf-8 and `errors=ignore`:
total, ill-formed byte sequences are dropped rather than failing. -/
def decodeUtf8Ignore (bs : List Nat) : String :=
  String.mk (utf8DecodeAux bs.length bs)

/-- Whitespace that Python `str.strip()` removes (the ASCII range). -/
def pyIsSpace (c : Char) : Bool :=
  c == ' ' || c == '\t' || c == '\n' || c == '\r' || c == '\x0b' || c == '\x0c'

/-- Model of Python `str.strip()`. -/
def pyStrip (s : String) : String :=
  String.mk (((s.data.dropWhile pyIsSpace).reverse.dropWhile pyIsSpace).reverse)

/-- `RemoteClient.command`: run the command, pick stdout and success on exit
status 0 and stderr and failure otherwise, then decode leniently, strip and
split on the newline character. -/
def command (env : String → ExecOutcome) (cmd : String) : List String × Bool :=
  let r := env cmd
  let p := if r.exitStatus = 0 then (r.stdout, true) else (r.stderr, false)
  ((pyStrip (decodeUtf8Ignore p.1)).splitOn "\n", p.2)

/-- `RemoteClient.execute_commands`: one `command` call per element, in
order, collecting the results in a list comprehension. -/
def execute_commands (env : String → ExecOutcome) (commands : List String) :
    List (List String × Bool) :=
  commands.map (command env)

/-- State of the SFTP channel as `remote_mkdir_p` uses it: the set of
existing remote directories, the channel's current working directory, and
the trace of `sftp.mkdir` calls performed. -/
structure SftpState where
  dirs : List String
  cwd : String
  mkdirTrace : List String
deriving DecidableEq, Repr

/-- Whether a path is absolute (begins with a slash). -/
def startsWithSlash (p : String) : Bool :=
  match p.data with
  | [] => false
  | c :: _ => c == '/'

/-- Resolve a possibly relative path against the channel's cwd, as the
SFTP channel does. -/
def resolvePath (st : SftpState) (p : String) : String :=
  if startsWithSlash p then p else pjoin st.cwd p

/-- Model of `sftp.chdir(p)`: raises `IOError` unless the resolved path is
an existing directory. -/
def sftp_chdir (st : SftpState) (p : String) : SftpState × Except PyErr Unit :=
  let rp := resolvePath st p
  if rp ∈ st.dirs then ({ st with cwd := rp }, .ok ()) else (st, .error .ioError)

/-- Model of `sftp.mkdir(p)`: raises `IOError` if the resolved path already
exists, otherwise creates it and records the creation attempt. -/
def sftp_mkdir (st : SftpState) (p : String) : SftpState × Except PyErr Unit :=
  let rp := resolvePath st p
  if rp ∈ st.dirs then (st, .error .ioError)
  else ({ st with dirs := st.dirs ++ [rp], mkdirTrace := st.mkdirTrace ++ [rp] }, .ok ())

/-- `RemoteClient.remote_mkdir_p`: explicit branches for the root path and
the empty path; otherwise try `chdir`, and only on `IOError` recurse on the
dirname, then `mkdir` and `chdir` the basename.  Returns `none` for the
Python `return` / `return None` paths and `some true` after a creation. -/
def remote_mkdir_p : Nat → SftpState → String → SftpState × Except PyErr (Option Bool)
  | 0, st, _ => (st, .error .recursionError)
  | fuel+1, st, path =>
    if path = "/" then
      match sftp_chdir st "/" with
      | (st1, Except.ok _) => (st1, .ok none)
      | (st1, Except.error e) => (st1, .error e)
    else if path = "" then (st, .ok none)
    else
      match sftp_chdir st path with
      | (st1, Except.ok _) => (st1, .ok none)
      | (st1, Except.error _) =>
        let pr := pathSplit (pyRstripSlash path)
        match remote_mkdir_p fuel st1 pr.1 with
        | (st2, Except.error e) => (st2, .error e)
        | (st2, Except.ok _) =>
          match sftp_mkdir st2 pr.2 with
          | (st3, Except.error e) => (st3, .error e)
          | (st3, Except.ok _) =>
            match sftp_chdir st3 pr.2 with
            | (st4, Except.error e) => (st4, .error e)
            | (st4, Except.ok _) => (st4, .ok (some true))

/-- A world with nothing on either side and a clean trace. -/
def emptyWorld : World :=
  { lkind := fun _ => PKind.absent, rstat := fun _ => StatResult.notFound,
    rlist := fun _ => [], llist := fun _ => [], mkdirOk := fun _ => true, effects := [] }

/-- A world whose remote stat always fails with a non-not-found error. -/
def statErrWorld : World := { emptyWorld with rstat := fun _ => StatResult.otherError }

/-- A world with a local directory `/src` and a remote regular file `/dst`. -/
def c5World : World :=
  { emptyWorld with
    lkind := fun p => if p = "/src" then PKind.directory else PKind.absent,
    rstat := fun p => if p = "/dst" then StatResult.found (S_IFREG + 0o644) else StatResult.notFound }

/-- A world with a local special file `/dev/sock` and a remote socket
`/dev/rsock` (mode `S_IFSOCK`). -/
def c10World : World :=
  { emptyWorld with
    lkind := fun p => if p = "/dev/sock" then PKind.special else PKind.absent,
    rstat := fun p => if p = "/dev/rsock" then StatResult.found 0o140000 else StatResult.notFound }

/-- A session fresh out of the constructor: both channels are `None`. -/
def freshSession : Session := { client := none, sftp := none }

/-- A connect environment whose transport-level connect raises an
authentication failure. -/
def authFailEnv : ConnEnv := { connectResult := ConnectOutcome.authFail, sftpOk := false }

/-- A session after a fully successful connect. -/
def openSession : Session :=
  { client := some { connected := true, closed := false }, sftp := some { closed := false } }

/-- An SFTP state with directories `/` and `/a`, cwd at the root, and no
mkdir performed yet. -/
def mkdirpState : SftpState := { dirs := ["/", "/a"], cwd := "/", mkdirTrace := [] }

/-- Helper: a mode with the regular-file type bits never has the directory
type bits. -/
theorem S_ISREG_not_dir (m : Nat) (h : S_ISREG m = true) : S_ISDIR m = false := by
  have hm : m &&& S_IFMT = S_IFREG := by simpa [S_ISREG] using h
  simp only [S_ISDIR, hm]
  decide

/-- C1: `write_file` on a remote path that is not an existing directory
writes exactly the given text and then passes the integer `755` — the
decimal literal from the source, not the octal value `0o755` = 493 that the
specification requires — to the permission-setting primitive. -/
theorem write_file_uses_decimal_755 :
    (write_file emptyWorld "#!/bin/sh\necho hi" "/tmp/script.sh").2 = .ok () ∧
    (write_file emptyWorld "#!/bin/sh\necho hi" "/tmp/script.sh").1.effects =
      [Effect.sftpWrite "/tmp/script.sh" "#!/bin/sh\necho hi",
       Effect.sftpChmod "/tmp/script.sh" 755] ∧
    (755 : Nat) ≠ 0o755 :=
  ⟨rfl, rfl, by decide⟩

/-- C2 counterexample: a stat failure other than not-found makes
`is_remote_exist` raise instead of returning `false`, refuting the claim
that every failing stat yields `false`. -/
theorem is_remote_exist_raises_on_other_error :
    is_remote_exist statErrWorld "/p" = .error .statError ∧
    is_remote_exist statErrWorld "/p" ≠ .ok false :=
  ⟨rfl, by simp [is_remote_exist, statErrWorld, emptyWorld]⟩

/-- C2 (amended): `is_remote_exist` returns `true` iff the stat succeeds,
returns `false` exactly on the not-found condition, and propagates every
other stat error as an exception rather than converting it to `false`. -/
theorem is_remote_exist_spec (w : World) (p : String) :
    (is_remote_exist w p = .ok true ↔ ∃ m, w.rstat p = StatResult.found m) ∧
    (is_remote_exist w p = .ok false ↔ w.rstat p = StatResult.notFound) ∧
    (is_remote_exist w p = .error .statError ↔ w.rstat p = StatResult.otherError) := by
  cases h : w.rstat p <;> simp [is_remote_exist, h]

/-- C2 witness: the amended statement evaluated on a concrete failing world. -/
theorem is_remote_exist_spec_witness :
    is_remote_exist statErrWorld "/q" = .error .statError :=
  (is_remote_exist_spec statErrWorld "/q").2.2.mpr rfl

/-- C3 counterexample: after a connect that fails with an authentication
error, the command-channel handle is not null — `self.client = SSHClient()`
ran before the failing step — refuting the claim that both channels are
null after a failed connect. -/
theorem connect_client_not_null_after_auth_fail :
    (connect freshSession authFailEnv).client ≠ none := by decide

/-- C3 (amended): a failed connect propagates no exception; on a session
whose file-operations channel was null, that channel stays null, while the
command-channel handle is left non-null: unconnected when the transport
connect failed, connected when only opening the SFTP channel failed. -/
theorem connect_failure_channels (s : Session) (env : ConnEnv)
    (hs : s.sftp = none)
    (h : env.connectResult ≠ ConnectOutcome.ok ∨ env.sftpOk = false) :
    (connect s env).sftp = none ∧
    (connect s env).client =
      some { connected := (match env.connectResult with
                           | ConnectOutcome.ok => true
                           | _ => false),
             closed := false } := by
  cases henv : env.connectResult with
  | ok =>
    have hok : env.sftpOk = false := by
      rcases h with h | h
      · exact absurd henv h
      · exact h
    simp [connect, henv, hok, hs]
  | authFail => simp [connect, henv, hs]
  | otherFail => simp [connect, henv, hs]

/-- C3 witness: the amended statement at a concrete failing environment. -/
theorem connect_failure_channels_witness :
    (connect freshSession authFailEnv).sftp = none ∧
    (connect freshSession authFailEnv).client =
      some { connected := (match authFailEnv.connectResult with
                           | ConnectOutcome.ok => true
                           | _ => false),
             closed := false } :=
  connect_failure_channels freshSession authFailEnv rfl (Or.inl (by decide))

/-- C4: fetching a non-existent remote source raises the not-found error
and returns the world unchanged — no local directory or file is created or
modified before the error. -/
theorem get_file_missing_remote (fuel : Nat) (w : World) (rp lp : String)
    (h : w.rstat rp = StatResult.notFound) :
    get_file (fuel+1) w rp lp =
      (w, .error (.valueError ("错误：远程路径" ++ rp ++ "不存在"))) := by
  simp [get_file, is_remote_exist, h]

/-- C4 witness: the theorem evaluated on the empty world. -/
theorem get_file_missing_remote_witness :
    get_file 1 emptyWorld "/r" "/l" =
      (emptyWorld, .error (.valueError ("错误：远程路径" ++ "/r" ++ "不存在"))) :=
  get_file_missing_remote 0 emptyWorld "/r" "/l" rfl

/-- C5: pushing a local directory onto a remote path that already exists as
a regular file raises the type-mismatch error and returns the world
unchanged — the existing remote file is not modified. -/
theorem put_file_dir_onto_remote_file (fuel : Nat) (w : World) (lp rp : String) (m : Nat)
    (hl : w.lkind lp = PKind.directory) (hr : w.rstat rp = StatResult.found m)
    (hm : S_ISREG m = true) :
    put_file (fuel+1) w lp rp =
      (w, .error (.valueError ("错误：远程路径" ++ rp ++ "为文件，但本地路径" ++ lp ++ "为文件夹，无法传输"))) := by
  have hd : S_ISDIR m = false := S_ISREG_not_dir m hm
  simp [put_file, os_exists, os_isdir, is_remote_exist, is_remote_dir, hl, hr, hd]

/-- C5 witness: the theorem evaluated on a concrete world. -/
theorem put_file_dir_onto_remote_file_witness :
    put_file 1 c5World "/src" "/dst" =
      (c5World, .error (.valueError ("错误：远程路径" ++ "/dst" ++ "为文件，但本地路径" ++ "/src" ++ "为文件夹，无法传输"))) :=
  put_file_dir_onto_remote_file 0 c5World "/src" "/dst" (S_IFREG + 0o644) rfl rfl (by decide)

/-- C6 counterexample: after `disconnect` on a connected session, neither
handle is null — `disconnect` closes the channels but never resets the
attributes to `None`, refuting the null-equivalent part of the claim. -/
theorem disconnect_handles_not_nulled :
    (disconnect openSession).sftp ≠ none ∧ (disconnect openSession).client ≠ none := by
  decide

/-- C6 (amended): `disconnect` is total and idempotent — absent channels
cause no failure and a second call changes nothing — and each present
handle is closed in place; the handles are not reset to null. -/
theorem disconnect_idempotent_closes (s : Session) :
    disconnect (disconnect s) = disconnect s ∧
    (disconnect s).sftp = s.sftp.map closeSftp ∧
    (disconnect s).client = s.client.map closeClient := by
  rcases s with ⟨c, f⟩
  cases c <;> cases f <;> simp [disconnect, closeClient, closeSftp]

/-- C7: `execute_commands` yields exactly one result per command, in order,
and the i-th result is `command` of the i-th input alone — a failing
command cannot abort or skip any later one. -/
theorem execute_commands_elementwise (env : String → ExecOutcome) (cmds : List String) :
    (execute_commands env cmds).length = cmds.length ∧
    ∀ i : Nat, (execute_commands env cmds)[i]? = (cmds[i]?).map (command env) := by
  constructor
  · simp [execute_commands]
  · intro i
    simp [execute_commands]

/-- C8: `command` succeeds exactly when the remote exit status is 0, and
its lines are the chosen stream (stdout on success, stderr otherwise)
decoded with ill-formed bytes dropped, stripped, and split on newlines. -/
theorem command_spec (env : String → ExecOutcome) (cmd : String) :
    ((command env cmd).2 = true ↔ (env cmd).exitStatus = 0) ∧
    (command env cmd).1 =
      (pyStrip (decodeUtf8Ignore
        (if (env cmd).exitStatus = 0 then (env cmd).stdout else (env cmd).stderr))).splitOn "\n" := by
  by_cases h : (env cmd).exitStatus = 0 <;> simp [command, h]

/-- C9: `remote_mkdir_p` edge cases: the root path only re-enters the root
and creates nothing; the empty path does nothing at all; a path whose
directory already exists only changes into it, with no error and no mkdir
attempt. -/
theorem remote_mkdir_p_edge_cases (fuel : Nat) (st : SftpState) (path : String) :
    (("/" : String) ∈ st.dirs →
      remote_mkdir_p (fuel+1) st "/" = ({ st with cwd := "/" }, .ok none)) ∧
    (remote_mkdir_p (fuel+1) st "" = (st, .ok none)) ∧
    (resolvePath st path ∈ st.dirs → path ≠ "/" → path ≠ "" →
      remote_mkdir_p (fuel+1) st path = ({ st with cwd := resolvePath st path }, .ok none)) := by
  have hres : resolvePath st "/" = "/" := rfl
  refine ⟨?_, ?_, ?_⟩
  · intro h
    simp [remote_mkdir_p, sftp_chdir, hres, h]
  · simp [remote_mkdir_p]
  · intro h hroot hempty
    simp [remote_mkdir_p, sftp_chdir, hroot, hempty, h]

/-- C9 witness: the three edge cases on a concrete SFTP state. -/
theorem remote_mkdir_p_edge_cases_witness :
    remote_mkdir_p 1 mkdirpState "/" = ({ mkdirpState with cwd := "/" }, .ok none) ∧
    remote_mkdir_p 1 mkdirpState "" = (mkdirpState, .ok none) ∧
    remote_mkdir_p 1 mkdirpState "/a" =
      ({ mkdirpState with cwd := resolvePath mkdirpState "/a" }, .ok none) :=
  ⟨(remote_mkdir_p_edge_cases 0 mkdirpState "/a").1 (by decide),
   (remote_mkdir_p_edge_cases 0 mkdirpState "/a").2.1,
   (remote_mkdir_p_edge_cases 0 mkdirpState "/a").2.2 (by decide) (by decide) (by decide)⟩

/-- C10: a source that exists but is neither a directory nor a regular file
is silently skipped: `get_file` on such a remote source and `put_file` on
such a local source both return normally with the world unchanged. -/
theorem special_source_paths_skipped (fuel : Nat) (w : World) (rp lp ls rd : String) (m : Nat)
    (h1 : w.rstat rp = StatResult.found m) (h2 : S_ISDIR m = false) (h3 : S_ISREG m = false)
    (h4 : w.lkind ls = PKind.special) :
    get_file (fuel+1) w rp lp = (w, .ok ()) ∧ put_file (fuel+1) w ls rd = (w, .ok ()) := by
  constructor
  · simp [get_file, is_remote_exist, is_remote_dir, is_remote_file, h1, h2, h3]
  · simp [put_file, os_exists, os_isdir, os_isfile, h4]

/-- C10 witness: the theorem evaluated on a concrete world with a remote
socket and a local special file. -/
theorem special_source_paths_skipped_witness :
    get_file 1 c10World "/dev/rsock" "/l" = (c10World, .ok ()) ∧
    put_file 1 c10World "/dev/sock" "/r" = (c10World, .ok ()) :=
  special_source_paths_skipped 0 c10World "/dev/rsock" "/l" "/dev/sock" "/r" 0o140000
    rfl (by decide) (by decide) rfl

end RemoteClient
